import Mathlib

/-!
# Transactions page: column registry, query dates and search controller

A shallow embedding of `packages/pilot/src/pages/Transactions/index.js`.

Conventions of the embedding:

* a JavaScript property that may be missing or `undefined` is an `Option`
  (`none` is `undefined`);
* a function that can raise a `TypeError` returns `Except JsError _`;
* the calls the component makes on its collaborators (`onRequestSearch`,
  `transactions.search`, `setState`, `onReceiveSearch`, `history.replace`)
  are recorded, in program order, as a list of `Effect`s;
* the Ramda helpers are embedded by what they compute (`nth` counts a
  negative offset from the end, `findIndex` answers `-1` when nothing
  matches, `prop` of a nil object gives `undefined`, `props` of a nil object
  raises a `TypeError`, `merge` builds a new object from the left one
  overridden by the right one).
-/

namespace Transactions

/-! ## Column registry -/

/-- An accessor path into a transaction record. -/
abbrev Accessor := List String

/-- One column definition. `renderer` names the formatter the column's
renderer ends in when the column has one, `orderable` is `none` when the key
is missing. -/
structure Column where
  title : String
  accessor : Accessor
  orderable : Option Bool
  renderer : Option String
  deriving DecidableEq, Repr

/-- The static column table, in the order of the source. -/
def columnsDefault : List Column :=
  [ { title := "Status", renderer := some "renderStatusLegend",
      accessor := ["status"], orderable := some true },
    { title := "Transaction Id", accessor := ["id"], orderable := some true,
      renderer := none },
    { title := "Date created", accessor := ["created_at"], orderable := some true,
      renderer := some "formatDateToBr" },
    { title := "CPF / CNPJ", accessor := ["customer", "document_number"],
      renderer := some "formatCpfCnpj",
      orderable := none },
    { title := "Payment method", accessor := ["payment", "method"],
      orderable := some true,
      renderer := some "formatPaymentMethod" },
    { title := "Paid amount", accessor := ["payment", "paid_amount"],
      orderable := some true, renderer := some "convertPaymentValue paid_amount" },
    { title := "Cost", accessor := ["payment", "cost_amount"],
      orderable := some true, renderer := some "convertPaymentValue cost_amount" },
    { title := "Net amount", accessor := ["payment", "net_amount"],
      renderer := some "convertPaymentValue net_amount", orderable := none },
    { title := "E-mail", accessor := ["customer", "email"], orderable := some true,
      renderer := none },
    { title := "Refuse Reason", accessor := ["refuse_reason"], orderable := some true,
      renderer := some "formatRefuseReason" },
    { title := "Antifraud", accessor := ["antifraud", "recommendation"],
      orderable := some true, renderer := none },
    { title := "Installments", accessor := ["payment", "installments"],
      orderable := some true, renderer := none },
    { title := "Name", accessor := ["customer", "name"], orderable := some true,
      renderer := none },
    { title := "Card brand", accessor := ["card", "brand_name"], orderable := some true,
      renderer := some "renderCardBrand" },
    { title := "Boleto Link", accessor := ["boleto", "url"], orderable := some true,
      renderer := none } ]

/-- Ramda `nth(offset, list)`: a negative offset counts from the end of the
list (`idx = offset < 0 ? list.length + offset : offset`), and an index
outside the list gives `undefined`. -/
def nth {α : Type} (offset : Int) (list : List α) : Option α :=
  let idx : Int := if offset < 0 then (list.length : Int) + offset else offset
  if idx < 0 then none else list.get? idx.toNat

/-- Ramda `findIndex(pred, list)`: the index of the first element that
satisfies `pred`, or `-1`. The auxiliary walks the list from index `idx`. -/
def findIndexFrom {α : Type} (pred : α → Bool) : List α → Int → Int
  | [], _ => -1
  | x :: xs, idx => if pred x then idx else findIndexFrom pred xs (idx + 1)

/-- Ramda `findIndex(pred, list)`. -/
def findIndex {α : Type} (pred : α → Bool) (list : List α) : Int :=
  findIndexFrom pred list 0

/-- Ramda `propEq('accessor', field)`: the column's accessor equals `field`,
element by element. `field` is `none` when the caller passes `undefined`. -/
def propEqAccessor (field : Option Accessor) (column : Column) : Bool :=
  decide (some column.accessor = field)

/-- Source `getOrderColumn`: `findIndex(propEq('accessor', field), columnsDefault)`. -/
def getOrderColumn (field : Option Accessor) : Int :=
  findIndex (propEqAccessor field) columnsDefault

/-- Source `getColumnAccessor`: `pipe(nth(index), prop('accessor'))`. The
result is `none` when `nth` finds no column: `prop` of the missing column is
`undefined` (a Ramda release whose `prop` reads the property off a nil object
raises a `TypeError` at this point instead; either way no accessor path is
produced). -/
def getColumnAccessor (index : Int) (columns : List Column) : Option Accessor :=
  (nth index columns).map (fun column => column.accessor)

/-! ## Queries and dates -/

/-- The error a JavaScript evaluation raises here. -/
inductive JsError
  | typeError
  deriving DecidableEq, Repr

/-- A `moment` instance, the calendar form of a date, identified by the
ISO-8601 text its `toISOString()` gives. -/
structure Moment where
  iso : String
  deriving DecidableEq, Repr

/-- The value of `dates.start` or `dates.end`: missing, `null`, a calendar
object, or a string (the form dates have in a decoded URL). -/
inductive DateEnd
  | undefined
  | null
  | calendar (inst : Moment)
  | text (value : String)
  deriving DecidableEq, Repr

/-- The value of the `dates` property of a query. `end_` is the property `end`. -/
inductive DatesValue
  | undefined
  | null
  | obj (start : DateEnd) (end_ : DateEnd)
  deriving DecidableEq, Repr

/-- The sort spec of a query. -/
structure SortSpec where
  field : Option Accessor
  order : Option String
  deriving DecidableEq, Repr

/-- The filter values of a query: filter name to selected values. -/
abbrev Filters := List (String × List String)

/-- A query object. For `dates`, `none` says the object has no own property
`dates`, while `some DatesValue.undefined` is the property set to `undefined`. -/
structure Query where
  search : Option String
  dates : Option DatesValue
  filters : Option Filters
  sort : Option SortSpec
  offset : Option Int
  count : Option Int
  deriving DecidableEq, Repr

/-- The empty object `{}` as a query. -/
def Query.empty : Query :=
  { search := none, dates := none, filters := none, sort := none,
    offset := none, count := none }

/-- Ramda `merge(l, r)`: a new object with the own properties of `l`
overridden by those of `r` (a property `r` lacks keeps the value of `l`);
neither argument is changed. -/
def merge (l r : Query) : Query :=
  { search := r.search <|> l.search,
    dates := r.dates <|> l.dates,
    filters := r.filters <|> l.filters,
    sort := r.sort <|> l.sort,
    offset := r.offset <|> l.offset,
    count := r.count <|> l.count }

/-- Ramda `objOf('dates')`: the object whose only property is `dates`. -/
def objOfDates (dates : DatesValue) : Query :=
  { Query.empty with dates := some dates }

/-- Ramda `isNil` on one end of the date range. -/
def DateEnd.isNil : DateEnd → Bool
  | .undefined => true
  | .null => true
  | _ => false

/-- Ramda `isNil` on the value of `dates`. -/
def DatesValue.isNil : DatesValue → Bool
  | .undefined => true
  | .null => true
  | _ => false

/-- Ramda `props(['start', 'end'])`: the two ends of the range. It reads
`obj[p]` for each name, which raises a `TypeError` when `dates` is nil. -/
def propsStartEnd : DatesValue → Except JsError (DateEnd × DateEnd)
  | .obj start end_ => .ok (start, end_)
  | _ => .error .typeError

/-- Source `toISOString`: `inst => inst.toISOString()`. Only a calendar object
has the method; on anything else the call raises a `TypeError`. -/
def toISOString : DateEnd → Except JsError DateEnd
  | .calendar inst => .ok (.text inst.iso)
  | _ => .error .typeError

/-- Source `isDatesNil`: `dates` is nil, or both its `start` and `end` are.
`anyPass` stops at the first predicate that holds, so `start` and `end` are
read off a non-nil `dates` only. -/
def isDatesNil : DatesValue → Bool
  | .undefined => true
  | .null => true
  | .obj start end_ => start.isNil && end_.isNil

/-- Source `parseDatesToISO`: the one-property object `{ dates }` whose
`dates` is `{}` when `isDatesNil`, and otherwise holds the ISO text of both
ends. `{}` is `DatesValue.obj` with both ends missing. -/
def parseDatesToISO (dates : DatesValue) : Except JsError Query :=
  if isDatesNil dates then
    .ok (objOfDates (.obj .undefined .undefined))
  else do
    let ends ← propsStartEnd dates
    let start ← toISOString ends.1
    let end_ ← toISOString ends.2
    pure (objOfDates (.obj start end_))

/-- Source `parseDatesToMoment`, with `moment` the constructor of the date
library: a query that has an own property `dates` gives the one-property
object whose `dates` holds the calendar form of both ends, and raises a
`TypeError` (in `props`) when that property is `undefined` or `null`; a query
without the property is returned as it is. -/
def parseDatesToMoment (moment : DateEnd → Moment) (query : Query) :
    Except JsError Query :=
  match query.dates with
  | some dates => do
    let ends ← propsStartEnd dates
    pure (objOfDates (.obj (.calendar (moment ends.1)) (.calendar (moment ends.2))))
  | none => .ok query

/-! ## Component state, props and effects -/

/-- A fetched transaction record, identified by its id. -/
abbrev Row := String

/-- A point of the chart dataset, identified by its label. -/
abbrev Point := String

/-- The `payment` part of the totals. -/
structure Payment where
  paid_amount : Option Int
  deriving DecidableEq, Repr

/-- The `total` part of a search result; `{}` before the first fetch. -/
structure Total where
  count : Option Int
  payment : Option Payment
  deriving DecidableEq, Repr

/-- The `result` of a search response: `total`, `list.rows`, `chart.dataset`. -/
structure SearchResult where
  total : Total
  rows : List Row
  dataset : List Point
  deriving DecidableEq, Repr

/-- The component state. -/
structure State where
  columns : List Column
  collapsed : Bool
  result : SearchResult
  deriving DecidableEq, Repr

/-- The state the constructor sets. -/
def State.initial : State :=
  { columns := columnsDefault, collapsed := true,
    result := { total := { count := none, payment := none }, rows := [], dataset := [] } }

/-- The router location in the props: `pathname` and the raw query string `search`. -/
structure Location where
  pathname : Option String
  search : Option String
  deriving DecidableEq, Repr

/-- The `search` slice of the store in the props. -/
structure SearchProps where
  loading : Bool
  query : Query
  deriving DecidableEq, Repr

/-- The props the component reads. -/
structure Props where
  location : Location
  search : SearchProps
  deriving DecidableEq, Repr

/-- The libraries the component calls: `decode` is `qs.parse` on a non-empty
string, `stringify` is `qs.stringify`, `moment` is the constructor of the date
library. -/
structure Libraries where
  decode : String → Query
  stringify : Query → String
  moment : DateEnd → Moment

/-- The call `qs.parse(str)`: the empty string parses to `{}`, any other string
is decoded by the library. -/
def qsParse (lib : Libraries) (str : String) : Query :=
  if str = "" then Query.empty else lib.decode str

/-- Ramda `tail` on a string: the string without its first character (the
leading `?` of a query string); `tail('')` is `''`. -/
def tail (str : String) : String :=
  String.mk (str.data.drop 1)

/-- A call the component makes on one of its collaborators. -/
inductive Effect
  | onRequestSearch
  | search (query : Query)
  | setState (result : SearchResult)
  | onReceiveSearch (query : Query)
  | historyReplace (pathname : Option String) (search : String)
  deriving DecidableEq, Repr

/-! ## Search controller -/

/-- Source `requestData`: call `transactions.search(query)`; when the promise
resolves with a result (`response` is `some`), store it with `setState` and
call `onReceiveSearch({ query })`. With `response = none` the promise has not
resolved and the callback has not run. -/
def requestData (query : Query) (response : Option SearchResult) : List Effect :=
  Effect.search query ::
    (match response with
     | some result => [Effect.setState result, Effect.onReceiveSearch query]
     | none => [])

/-- The query `newQuery` that `updateUrl` builds:
`merge(query, parseDatesToISO(query.dates))`. -/
def updateUrlNewQuery (query : Query) : Except JsError Query :=
  (parseDatesToISO (query.dates.getD .undefined)).map (merge query)

/-- A reference to a query object in the store. -/
abbrev Ref := Nat

/-- The query objects that exist, each at the reference that is its position.
Passing an object passes its reference, and a write through a reference is
seen by every holder of it. -/
abbrev Store := List Query

/-- The object a reference points at. -/
def Store.read (store : Store) (ref : Ref) : Option Query :=
  store[ref]?

/-- A new object at the next free reference. -/
def Store.alloc (store : Store) (object : Query) : Store × Ref :=
  (store ++ [object], store.length)

/-- Overwrite the object a reference points at. -/
def Store.write (store : Store) (ref : Ref) (object : Query) : Store :=
  store.set ref object

/-- One source of `Object.assign(target, source)`: the own properties of
`source` are written into the object `target` points at. -/
def objectAssign (store : Store) (target source : Ref) : Store :=
  match store.read target, store.read source with
  | some into, some src => store.write target (merge into src)
  | _, _ => store

/-- Ramda `merge(l, r)` on references, `Object.assign({}, l, r)`: a new empty
object is allocated and the properties of `l`, then those of `r`, are written
into it. -/
def mergeStore (store : Store) (l r : Ref) : Store × Ref :=
  let fresh := store.alloc Query.empty
  (objectAssign (objectAssign fresh.1 fresh.2 l) fresh.2 r, fresh.2)

/-- Source `updateUrl` on the store, `query` being the reference it is called
with: the one-property object of `parseDatesToISO` and the merged `newQuery`
are new objects. The result is the store afterwards, the reference of
`newQuery`, and the `history.replace` call. -/
def updateUrlStore (lib : Libraries) (props : Props) (store : Store) (query : Ref) :
    Except JsError (Store × Ref × List Effect) :=
  match store.read query with
  | none => .error .typeError
  | some object => do
    let patch ← parseDatesToISO (object.dates.getD .undefined)
    let allocated := store.alloc patch
    let merged := mergeStore allocated.1 query allocated.2
    match merged.1.read merged.2 with
    | some newQuery =>
      pure (merged.1, merged.2,
        [Effect.historyReplace props.location.pathname (lib.stringify newQuery)])
    | none => .error .typeError

/-- Source `updateUrl`: replace the history entry by the current pathname with
the serialised `newQuery`. -/
def updateUrl (lib : Libraries) (props : Props) (query : Query) :
    Except JsError (List Effect) :=
  (updateUrlNewQuery query).map
    (fun newQuery => [Effect.historyReplace props.location.pathname (lib.stringify newQuery)])

/-- The `chooseQuery` of `componentDidMount`, applied to `location.search`:
the stored query when the raw string is nil or empty, the decoded URL
otherwise. -/
def chooseQuery (lib : Libraries) (props : Props) : Query :=
  match props.location.search with
  | none => props.search.query
  | some search => if search = "" then props.search.query else qsParse lib (tail search)

/-- Source `componentDidMount`: choose the query, put its dates in calendar
form, and request the data. A `TypeError` of the date conversion is raised
before `requestData` is reached. -/
def componentDidMount (lib : Libraries) (props : Props)
    (response : Option SearchResult) : Except JsError (List Effect) := do
  let chosenQuery := chooseQuery lib props
  let calendar ← parseDatesToMoment lib.moment chosenQuery
  let query := merge chosenQuery calendar
  pure (requestData query response)

/-- The `getQuery` of `componentWillReceiveProps`:
`pipe(tail, qs.parse, juxt([identity, parseDatesToMoment]), mergeAll)`.
`tail` of `undefined` raises a `TypeError`. -/
def getQuery (lib : Libraries) (search : Option String) : Except JsError Query :=
  match search with
  | none => .error .typeError
  | some str => do
    let parsed := qsParse lib (tail str)
    let calendar ← parseDatesToMoment lib.moment parsed
    pure (merge parsed calendar)

/-- Source `componentWillReceiveProps`: when the raw query string of the next
location differs from the current one, decode it and request the data. -/
def componentWillReceiveProps (lib : Libraries) (props nextProps : Props)
    (response : Option SearchResult) : Except JsError (List Effect) :=
  if nextProps.location.search ≠ props.location.search then
    (getQuery lib nextProps.location.search).map (fun query => requestData query response)
  else
    .ok []

/-- Source `handlePageCountChange`. -/
def handlePageCountChange (props : Props) (count : Int)
    (response : Option SearchResult) : List Effect :=
  Effect.onRequestSearch ::
    requestData { props.search.query with offset := some 1, count := some count } response

/-- Source `handleOrderChange`. -/
def handleOrderChange (props : Props) (index : Int) (order : Option String)
    (response : Option SearchResult) : List Effect :=
  Effect.onRequestSearch ::
    requestData
      { props.search.query with
        sort := some { field := getColumnAccessor index columnsDefault, order := order },
        offset := some 1 }
      response

/-- The argument of `handleFilterChange`: `{ search, dates, values }`. -/
structure FilterChange where
  search : Option String
  dates : DatesValue
  values : Option Filters
  deriving DecidableEq, Repr

/-- Source `handleFilterChange`. -/
def handleFilterChange (props : Props) (filters : FilterChange)
    (response : Option SearchResult) : List Effect :=
  Effect.onRequestSearch ::
    requestData
      { props.search.query with
        search := filters.search,
        dates := some filters.dates,
        filters := filters.values,
        offset := some 1 }
      response

/-- Source `handlePageChange`. -/
def handlePageChange (props : Props) (page : Int)
    (response : Option SearchResult) : List Effect :=
  Effect.onRequestSearch ::
    requestData { props.search.query with offset := some page } response

/-- Source `handleChartsCollapse`. -/
def handleChartsCollapse (state : State) : State :=
  { state with collapsed := !state.collapsed }

/-- The state after the `setState` calls of a trace. -/
def applySetState (state : State) : List Effect → State
  | [] => state
  | Effect.setState result :: rest => applySetState { state with result := result } rest
  | _ :: rest => applySetState state rest

/-! ## Trace observations -/

/-- The queries passed to `transactions.search`, in order. -/
def searchedQueries : List Effect → List Query
  | [] => []
  | Effect.search query :: rest => query :: searchedQueries rest
  | _ :: rest => searchedQueries rest

/-- The queries reported with `onReceiveSearch`, in order. -/
def receivedQueries : List Effect → List Query
  | [] => []
  | Effect.onReceiveSearch query :: rest => query :: receivedQueries rest
  | _ :: rest => receivedQueries rest

/-- The `history.replace` calls of a trace, in order. -/
def historyReplaces : List Effect → List (Option String × String)
  | [] => []
  | Effect.historyReplace pathname search :: rest => (pathname, search) :: historyReplaces rest
  | _ :: rest => historyReplaces rest

/-- Every `search` of the trace has an `onRequestSearch` before it that no
`onReceiveSearch` separates from it. `loading` says whether such a
notification is pending when the trace starts. -/
def loadingBeforeSearch (loading : Bool) : List Effect → Bool
  | [] => true
  | Effect.onRequestSearch :: rest => loadingBeforeSearch true rest
  | Effect.onReceiveSearch _ :: rest => loadingBeforeSearch false rest
  | Effect.search _ :: rest => loading && loadingBeforeSearch loading rest
  | _ :: rest => loadingBeforeSearch loading rest

/-! ## Rendering -/

/-- A JavaScript number: the rational value of a finite double, `NaN`, or an
infinity (the sign of zero is not kept). -/
inductive JsNum
  | num (value : ℚ)
  | nan
  | infinity
  | negInfinity
  deriving DecidableEq

/-- Round to the nearest integer, a tie going to the even one. -/
def roundTiesEven (m : ℚ) : ℤ :=
  if m - (Int.floor m : ℤ) < 1 / 2 then Int.floor m
  else if 1 / 2 < m - (Int.floor m : ℤ) then Int.floor m + 1
  else if Int.floor m % 2 = 0 then Int.floor m
  else Int.floor m + 1

/-- The spacing of the doubles around a positive `a`: `2 ^ (e - 52)` for
`2 ^ e ≤ a < 2 ^ (e + 1)`, and that of the subnormal range below `2 ^ (-1022)`. -/
def doubleUlp (a : ℚ) : ℚ :=
  (2 : ℚ) ^ (max (Int.log 2 a) (-1022) - 52)

/-- The double an exact result is rounded to (IEEE 754 binary64, round to
nearest, ties to even): a multiple of the spacing at that magnitude, or an
infinity from `2 ^ 1024` on. -/
def toDouble (q : ℚ) : JsNum :=
  if q = 0 then .num 0
  else
    let rounded : ℚ := (roundTiesEven (|q| / doubleUlp |q|) : ℤ) * doubleUlp |q|
    if (2 : ℚ) ^ 1024 ≤ rounded then (if 0 < q then .infinity else .negInfinity)
    else if 0 < q then .num rounded else .num (-rounded)

/-- The quotient `a / b` of two properties that hold an integer-valued number
or are `undefined`: the exact quotient rounded to a double; `undefined` makes
it `NaN`, a zero divisor an infinity or `NaN`. -/
def jsDivide (a b : Option Int) : JsNum :=
  match a, b with
  | some x, some y =>
    if y ≠ 0 then toDouble ((x : ℚ) / (y : ℚ))
    else if x = 0 then .nan
    else if 0 < x then .infinity
    else .negInfinity
  | _, _ => .nan

/-- The function `Math.ceil`. -/
def mathCeil : JsNum → JsNum
  | .num value => .num (Int.ceil value : ℤ)
  | other => other

/-- The `pagination` prop. -/
structure Pagination where
  offset : Option Int
  total : JsNum
  deriving DecidableEq

/-- The props `render` passes to `TransactionsList` (the static option tables
and the bound handlers apart). -/
structure ListProps where
  count : Option Int
  amount : Option Int
  search : Option String
  values : Option Filters
  dates : DatesValue
  collapsed : Bool
  order : Option String
  rows : List Row
  columns : List Column
  orderColumn : Int
  pagination : Pagination
  data : List Point
  loading : Bool
  selectedPage : Option Int
  deriving DecidableEq

/-- Source `render`. The statement `getOrderColumn(sort.field)` reads `field`
from `sort` without a test, so a nil `sort` raises a `TypeError` there; the
`order` prop, further down, tests `sort` first. -/
def render (state : State) (props : Props) : Except JsError ListProps := do
  let query := props.search.query
  let total := state.result.total
  let sort := query.sort
  let field ← match sort with
    | some spec => pure spec.field
    | none => throw JsError.typeError
  let orderColumn := getOrderColumn field
  let pagination : Pagination :=
    { offset := query.offset, total := mathCeil (jsDivide total.count query.count) }
  pure
    { count := total.count,
      amount := match total.payment with
        | some payment => payment.paid_amount
        | none => some 0,
      search := query.search,
      values := query.filters,
      dates := query.dates.getD .undefined,
      collapsed := state.collapsed,
      order := match sort with
        | some spec => spec.order
        | none => some "",
      rows := state.result.rows,
      columns := state.columns,
      orderColumn := orderColumn,
      pagination := pagination,
      data := state.result.dataset,
      loading := props.search.loading,
      selectedPage := query.count }

/-- The effects of a step that may raise: an exception raised before the
first call leaves no effect. -/
def effectsOf : Except JsError (List Effect) → List Effect
  | .ok trace => trace
  | .error _ => []

/-! ## Sample values -/

/-- A stored query: page 2 of the search for `foo`, ten per page, newest id first. -/
def sampleQuery : Query :=
  { search := some "foo", dates := none, filters := none,
    sort := some { field := some ["id"], order := some "descending" },
    offset := some 2, count := some 10 }

/-- Props whose URL carries the sample query. -/
def sampleProps : Props :=
  { location := { pathname := some "/transactions", search := some "?search=foo&offset=2&count=10" },
    search := { loading := false, query := sampleQuery } }

/-- A search result with 101 records in total. -/
def sampleResult : SearchResult :=
  { total := { count := some 101, payment := some { paid_amount := some 5000 } },
    rows := ["tx_1"], dataset := [] }

/-- Stand-ins for the libraries: a decoder that reads every string as `{}`, a
serialiser that writes the search text, and a date constructor that keeps the
text of a string and reads anything else as the epoch. -/
def sampleLibraries : Libraries :=
  { decode := fun _ => Query.empty
    stringify := fun query => query.search.getD ""
    moment := fun date =>
      match date with
      | .calendar inst => inst
      | .text value => { iso := value }
      | _ => { iso := "1970-01-01T00:00:00.000Z" } }

/-- The component state after the sample result has been stored. -/
def sampleState : State :=
  { State.initial with result := sampleResult }

/-! ## Column registry: properties -/

/-- The column table has fifteen entries. -/
theorem columnsDefault_length : columnsDefault.length = 15 := by decide

/-- Ramda `nth` with an index at or past the end finds nothing. -/
theorem nth_of_length_le {α : Type} (list : List α) (offset : Int)
    (h : (list.length : Int) ≤ offset) : nth offset list = none := by
  unfold nth
  have h0 : ¬ offset < 0 := by omega
  simp only [h0, if_false]
  apply List.get?_eq_none.mpr
  omega

/-- Ramda `nth` with a negative index below minus the length finds nothing. -/
theorem nth_of_lt_neg_length {α : Type} (list : List α) (offset : Int)
    (h : offset < -(list.length : Int)) : nth offset list = none := by
  unfold nth
  have h0 : offset < 0 := by omega
  have h1 : (list.length : Int) + offset < 0 := by omega
  simp only [h0, h1, if_true]

/-- C1: for every valid index `i` of the column table (`0 ≤ i < 15`), the index
that `getOrderColumn` finds for the accessor `getColumnAccessor(i)(columnsDefault)`
is `i` again; the accessor paths of the table are pairwise different. -/
theorem getOrderColumn_getColumnAccessor (i : Int) (h0 : 0 ≤ i) (h15 : i < 15) :
    getOrderColumn (getColumnAccessor i columnsDefault) = i ∧
      (columnsDefault.map Column.accessor).Nodup := by
  constructor
  · interval_cases i <;> decide
  · decide

/-- C1, at the column `Cost` (index 6). -/
theorem getOrderColumn_getColumnAccessor_witness :
    getOrderColumn (getColumnAccessor 6 columnsDefault) = 6 ∧
      (columnsDefault.map Column.accessor).Nodup :=
  getOrderColumn_getColumnAccessor 6 (by decide) (by decide)

/-- C2, as stated, fails: the index `-1` is outside the table, and
`getColumnAccessor(-1)(columnsDefault)` is the accessor path of the last
column, `Boleto Link`. -/
theorem getColumnAccessor_negative_counterexample :
    ((-1 : Int) < 0 ∨ (15 : Int) ≤ -1) ∧
      getColumnAccessor (-1) columnsDefault = some ["boleto", "url"] ∧
      getColumnAccessor (-1) columnsDefault = getColumnAccessor 14 columnsDefault := by
  decide

/-- C2, amended: for an index `≥ 15` or `< -15`, `getColumnAccessor` gives the
not-found value and no accessor path; for `-15 ≤ index < 0` it counts from the
end of the table and gives the accessor of column `index + 15`, which exists. -/
theorem getColumnAccessor_outside (index : Int) :
    ((15 ≤ index ∨ index < -15) → getColumnAccessor index columnsDefault = none) ∧
    ((-15 ≤ index ∧ index < 0) →
      getColumnAccessor index columnsDefault = getColumnAccessor (index + 15) columnsDefault ∧
      (getColumnAccessor index columnsDefault).isSome = true) := by
  constructor
  · intro h
    unfold getColumnAccessor
    rcases h with h | h
    · rw [nth_of_length_le _ _ (by rw [columnsDefault_length]; exact_mod_cast h)]; rfl
    · rw [nth_of_lt_neg_length _ _ (by rw [columnsDefault_length]; exact_mod_cast h)]; rfl
  · rintro ⟨hlo, hhi⟩
    interval_cases index <;> decide

/-- C2 amended, at the indices `15`, `-16` and `-1`. -/
theorem getColumnAccessor_outside_witness :
    getColumnAccessor 15 columnsDefault = none ∧
    getColumnAccessor (-16) columnsDefault = none ∧
    getColumnAccessor (-1) columnsDefault = getColumnAccessor (-1 + 15) columnsDefault :=
  ⟨(getColumnAccessor_outside 15).1 (Or.inl (by decide)),
   (getColumnAccessor_outside (-16)).1 (Or.inr (by decide)),
   ((getColumnAccessor_outside (-1)).2 ⟨by decide, by decide⟩).1⟩

/-! ## Search controller: the query of each user action -/

/-- C3: for every stored query and every page size `n`, `handlePageCountChange(n)`
issues exactly one search, with the query whose `offset` is 1, whose `count` is
`n`, and whose `search`, `dates`, `filters` and `sort` are those of the stored
query. -/
theorem handlePageCountChange_query (props : Props) (n : Int)
    (response : Option SearchResult) :
    searchedQueries (handlePageCountChange props n response) =
      [{ search := props.search.query.search,
         dates := props.search.query.dates,
         filters := props.search.query.filters,
         sort := props.search.query.sort,
         offset := some 1,
         count := some n }] := by
  cases response <;> rfl

/-- C4: for every stored query, `handleFilterChange({search, dates, values})`
searches with the stored query overridden by `search`, `dates`,
`filters = values` and `offset = 1`; `handleOrderChange(i, order)` with a valid
column index `i` searches with it overridden by
`sort = {field: accessor of column i, order}` and `offset = 1`;
`handlePageChange(p)` searches with it overridden by `offset = p` only. -/
theorem handlers_query (props : Props) (filters : FilterChange) (i : Int)
    (order : Option String) (p : Int) (response : Option SearchResult)
    (h0 : 0 ≤ i) (h15 : i < 15) :
    searchedQueries (handleFilterChange props filters response) =
      [{ search := filters.search,
         dates := some filters.dates,
         filters := filters.values,
         sort := props.search.query.sort,
         offset := some 1,
         count := props.search.query.count }] ∧
    (∃ column, columnsDefault.get? i.toNat = some column ∧
      searchedQueries (handleOrderChange props i order response) =
        [{ search := props.search.query.search,
           dates := props.search.query.dates,
           filters := props.search.query.filters,
           sort := some { field := some column.accessor, order := order },
           offset := some 1,
           count := props.search.query.count }]) ∧
    searchedQueries (handlePageChange props p response) =
      [{ search := props.search.query.search,
         dates := props.search.query.dates,
         filters := props.search.query.filters,
         sort := props.search.query.sort,
         offset := some p,
         count := props.search.query.count }] := by
  refine ⟨by cases response <;> rfl, ?_, by cases response <;> rfl⟩
  interval_cases i <;> exact ⟨_, rfl, by cases response <;> rfl⟩

/-- C4, at the sample props: a filter change to the text `bar`, a click on
column 4 (`Payment method`), and a move to page 3. -/
theorem handlers_query_witness :
    searchedQueries (handleFilterChange sampleProps
        { search := some "bar", dates := .undefined, values := none } none) =
      [{ search := some "bar", dates := some .undefined, filters := none,
         sort := sampleQuery.sort, offset := some 1, count := some 10 }] ∧
    (∃ column, columnsDefault.get? (4 : Int).toNat = some column ∧
      searchedQueries (handleOrderChange sampleProps 4 (some "ascending") none) =
        [{ search := some "foo", dates := none, filters := none,
           sort := some { field := some column.accessor, order := some "ascending" },
           offset := some 1, count := some 10 }]) ∧
    searchedQueries (handlePageChange sampleProps 3 none) =
      [{ search := some "foo", dates := none, filters := none,
         sort := sampleQuery.sort, offset := some 3, count := some 10 }] :=
  handlers_query sampleProps { search := some "bar", dates := .undefined, values := none }
    4 (some "ascending") 3 none (by decide) (by decide)

/-! ## Search controller: effects on the URL and the loading signal -/

/-- The full trace of `handlePageChange(3)` on the sample props, its fetch
resolved: four calls, none of them `history.replace`. -/
theorem handlePageChange_sample_trace :
    (¬ ∃ pathname search,
        Effect.historyReplace pathname search ∈
          handlePageChange sampleProps 3 (some sampleResult)) ∧
    handlePageChange sampleProps 3 (some sampleResult) =
      [Effect.onRequestSearch,
       Effect.search { sampleQuery with offset := some 3 },
       Effect.setState sampleResult,
       Effect.onReceiveSearch { sampleQuery with offset := some 3 }] := by
  constructor
  · rintro ⟨pathname, search, h⟩
    simp [handlePageChange, requestData] at h
  · rfl

/-- Merging the one-property object `{ dates }` over a query replaces its
`dates` and keeps every other field. -/
theorem merge_objOfDates (query : Query) (dates : DatesValue) :
    merge query (objOfDates dates) =
      { search := query.search, dates := some dates, filters := query.filters,
        sort := query.sort, offset := query.offset, count := query.count } := by
  simp [merge, objOfDates, Query.empty]

/-- Merging a query over itself gives it back. -/
theorem merge_self (query : Query) : merge query query = query := by
  cases query with
  | mk search dates filters sort offset count =>
    cases search <;> cases dates <;> cases filters <;> cases sort <;>
      cases offset <;> cases count <;> rfl

/-- The mount either raises in the date conversion, before any call, or
performs exactly the calls of `requestData`. -/
theorem componentDidMount_eq (lib : Libraries) (props : Props)
    (response : Option SearchResult) :
    componentDidMount lib props response =
      (parseDatesToMoment lib.moment (chooseQuery lib props)).map
        (fun calendar => requestData (merge (chooseQuery lib props) calendar) response) := by
  show (parseDatesToMoment lib.moment (chooseQuery lib props) >>= fun calendar =>
    pure (requestData (merge (chooseQuery lib props) calendar) response)) = _
  generalize parseDatesToMoment lib.moment (chooseQuery lib props) = converted
  cases converted <;> rfl

/-- The decoding on navigation either raises or gives the decoded query with
its dates in calendar form. -/
theorem getQuery_some (lib : Libraries) (str : String) :
    getQuery lib (some str) =
      (parseDatesToMoment lib.moment (qsParse lib (tail str))).map
        (fun calendar => merge (qsParse lib (tail str)) calendar) := by
  show (parseDatesToMoment lib.moment (qsParse lib (tail str)) >>= fun calendar =>
    pure (merge (qsParse lib (tail str)) calendar)) = _
  generalize parseDatesToMoment lib.moment (qsParse lib (tail str)) = converted
  cases converted <;> rfl

/-- C5 fails: no path of the controller calls `history.replace` (`updateUrl`
has no caller), neither the four user-action handlers nor the fetches of mount
and navigation; when the fetch of a user action resolves, the query that was
searched is reported through `onReceiveSearch` only. -/
theorem controller_never_replaces_history (lib : Libraries) (props nextProps : Props)
    (filters : FilterChange) (i : Int) (order : Option String) (p n : Int)
    (response : Option SearchResult) (result : SearchResult) :
    historyReplaces (handleFilterChange props filters response) = [] ∧
    historyReplaces (handlePageChange props p response) = [] ∧
    historyReplaces (handlePageCountChange props n response) = [] ∧
    historyReplaces (handleOrderChange props i order response) = [] ∧
    historyReplaces (effectsOf (componentDidMount lib props response)) = [] ∧
    historyReplaces (effectsOf (componentWillReceiveProps lib props nextProps response)) = [] ∧
    receivedQueries (handleFilterChange props filters (some result)) =
      searchedQueries (handleFilterChange props filters (some result)) ∧
    receivedQueries (handlePageChange props p (some result)) =
      searchedQueries (handlePageChange props p (some result)) ∧
    receivedQueries (handlePageCountChange props n (some result)) =
      searchedQueries (handlePageCountChange props n (some result)) ∧
    receivedQueries (handleOrderChange props i order (some result)) =
      searchedQueries (handleOrderChange props i order (some result)) := by
  refine ⟨?_, ?_, ?_, ?_, ?_, ?_, rfl, rfl, rfl, rfl⟩
  · cases response <;> rfl
  · cases response <;> rfl
  · cases response <;> rfl
  · cases response <;> rfl
  · rw [componentDidMount_eq]
    cases parseDatesToMoment lib.moment (chooseQuery lib props) with
    | error e => rfl
    | ok calendar => cases response <;> rfl
  · unfold componentWillReceiveProps
    split
    · cases hs : nextProps.location.search with
      | none => rfl
      | some str =>
        rw [getQuery_some]
        cases parseDatesToMoment lib.moment (qsParse lib (tail str)) with
        | error e => rfl
        | ok calendar => cases response <;> rfl
    · rfl

/-- C6 fails on mount and navigation: `componentDidMount` either raises in the
date conversion or performs exactly the calls of `requestData`, which start
with the `search` call and hold no `onRequestSearch`; with an empty query
string and a stored query without `dates` it does search, unannounced, and so
does the navigation from `?count=10` to the bare path; each of the four
user-action handlers does emit `onRequestSearch` first. -/
theorem componentDidMount_searches_unannounced (lib : Libraries) (props : Props)
    (filters : FilterChange) (i : Int) (order : Option String) (p n : Int)
    (response : Option SearchResult) :
    (componentDidMount lib props response = .error .typeError ∨
      ∃ query, componentDidMount lib props response = .ok (requestData query response)) ∧
    (∀ query, loadingBeforeSearch false (requestData query response) = false ∧
      Effect.onRequestSearch ∉ requestData query response) ∧
    componentDidMount lib
        { location := { props.location with search := some "" },
          search := { props.search with
            query := { props.search.query with dates := none } } }
        response
      = .ok (requestData { props.search.query with dates := none } response) ∧
    loadingBeforeSearch false
      (effectsOf (componentDidMount lib
        { location := { props.location with search := some "" },
          search := { props.search with
            query := { props.search.query with dates := none } } }
        response)) = false ∧
    loadingBeforeSearch false
      (effectsOf (componentWillReceiveProps lib
        { props with location := { props.location with search := some "?count=10" } }
        { props with location := { props.location with search := some "" } }
        response)) = false ∧
    loadingBeforeSearch false (handleFilterChange props filters response) = true ∧
    loadingBeforeSearch false (handlePageChange props p response) = true ∧
    loadingBeforeSearch false (handlePageCountChange props n response) = true ∧
    loadingBeforeSearch false (handleOrderChange props i order response) = true := by
  have hmount : componentDidMount lib
        { location := { props.location with search := some "" },
          search := { props.search with
            query := { props.search.query with dates := none } } }
        response
      = .ok (requestData { props.search.query with dates := none } response) := by
    rw [componentDidMount_eq]
    show Except.ok (requestData (merge _ _) response) = _
    rw [merge_self]
    rfl
  refine ⟨?_, ?_, hmount, ?_, ?_, ?_, ?_, ?_, ?_⟩
  · rw [componentDidMount_eq]
    cases parseDatesToMoment lib.moment (chooseQuery lib props) with
    | error e => cases e; exact Or.inl rfl
    | ok calendar => exact Or.inr ⟨_, rfl⟩
  · intro query
    cases response <;> simp [requestData, loadingBeforeSearch]
  · rw [hmount]
    cases response <;> rfl
  · cases response <;> rfl
  · cases response <;> rfl
  · cases response <;> rfl
  · cases response <;> rfl
  · cases response <;> rfl

/-- C7 fails on navigation: when the location changes from `?search=foo` to the
empty query string, `componentWillReceiveProps` searches with the empty query
`{}`, whatever query is stored. `componentDidMount`, with an empty or missing
query string, chooses the stored query: it searches with it when it has no
`dates`, with its dates in calendar form when `dates` is an object, and raises
a `TypeError` without searching when `dates` is `undefined` or `null`. -/
theorem componentWillReceiveProps_empty_search (lib : Libraries) (pathname : Option String)
    (loading : Bool) (query : Query) (start end_ : DateEnd)
    (response : Option SearchResult) :
    componentWillReceiveProps lib
        { location := { pathname := pathname, search := some "?search=foo" },
          search := { loading := loading, query := query } }
        { location := { pathname := pathname, search := some "" },
          search := { loading := loading, query := query } }
        response
      = .ok (requestData Query.empty response) ∧
    chooseQuery lib
        { location := { pathname := pathname, search := some "" },
          search := { loading := loading, query := query } } = query ∧
    chooseQuery lib
        { location := { pathname := pathname, search := none },
          search := { loading := loading, query := query } } = query ∧
    componentDidMount lib
        { location := { pathname := pathname, search := some "" },
          search := { loading := loading, query := { query with dates := none } } }
        response
      = .ok (requestData { query with dates := none } response) ∧
    componentDidMount lib
        { location := { pathname := pathname, search := some "" },
          search := { loading := loading,
                      query := { query with dates := some (.obj start end_) } } }
        response
      = .ok (requestData
          { query with
            dates := some (.obj (.calendar (lib.moment start)) (.calendar (lib.moment end_))) }
          response) ∧
    componentDidMount lib
        { location := { pathname := pathname, search := some "" },
          search := { loading := loading, query := { query with dates := some .undefined } } }
        response
      = .error .typeError ∧
    componentDidMount lib
        { location := { pathname := pathname, search := some "" },
          search := { loading := loading, query := { query with dates := some .null } } }
        response
      = .error .typeError := by
  refine ⟨rfl, rfl, rfl, ?_, ?_, rfl, rfl⟩
  · rw [componentDidMount_eq]
    show Except.ok (requestData (merge _ _) response) = _
    rw [merge_self]
    rfl
  · rw [componentDidMount_eq]
    show Except.ok (requestData (merge _ (objOfDates _)) response) = _
    rw [merge_objOfDates]
    rfl


/-! ## Object store: reads after allocation -/

/-- A reference that reads an object lies inside the store. -/
theorem Store.read_lt {store : Store} {ref : Ref} {object : Query}
    (h : store.read ref = some object) : ref < store.length := by
  unfold Store.read at h
  exact (List.getElem?_eq_some_iff.mp h).1

/-- Allocating more objects does not change what an existing reference reads. -/
theorem Store.read_append_of_read {store : Store} {ref : Ref} {object : Query}
    (h : store.read ref = some object) (more : List Query) :
    Store.read (store ++ more) ref = some object := by
  unfold Store.read at h ⊢
  rw [List.getElem?_append_left (Store.read_lt h)]
  exact h

/-- The reference of a new object reads that object. -/
theorem Store.read_append_length (store : Store) (object : Query) :
    Store.read (store ++ [object]) store.length = some object := by
  unfold Store.read
  simp

/-- Writing through the reference of the last object replaces that object only. -/
theorem Store.write_append_length (store : Store) (old object : Query) :
    Store.write (store ++ [old]) store.length object = store ++ [object] := by
  unfold Store.write
  simp

/-- Merging a query over the empty object gives the query. -/
theorem merge_empty_left (query : Query) : merge Query.empty query = query := by
  cases query with
  | mk search dates filters sort offset count =>
    cases search <;> cases dates <;> cases filters <;> cases sort <;>
      cases offset <;> cases count <;> rfl

/-- The merge on references allocates one object, the merge of the two objects
read, and writes to nothing else. -/
theorem mergeStore_eq (store : Store) (l r : Ref) (left right : Query)
    (hl : store.read l = some left) (hr : store.read r = some right) :
    mergeStore store l r = (store ++ [merge left right], store.length) := by
  unfold mergeStore Store.alloc
  simp only
  have h1 : objectAssign (store ++ [Query.empty]) store.length l = store ++ [left] := by
    unfold objectAssign
    rw [Store.read_append_length, Store.read_append_of_read hl]
    simp only
    rw [Store.write_append_length, merge_empty_left]
  rw [h1]
  have h2 : objectAssign (store ++ [left]) store.length r = store ++ [merge left right] := by
    unfold objectAssign
    rw [Store.read_append_length, Store.read_append_of_read hr]
    simp only
    rw [Store.write_append_length]
  rw [h2]


/-- C8: for every query whose `dates` is missing, `undefined` or `null`, or
whose `dates.start` and `dates.end` are both nil, the query
`merge(q, parseDatesToISO(q.dates))` that `updateUrl` builds has `dates` equal
to the empty object `{}` and every other field equal to that of `q`, and it is
the query `updateUrl` serialises; it is a new object, and `q` itself, like
every other object that existed before the call, is not modified. -/
theorem updateUrl_nil_dates (lib : Libraries) (props : Props) (store : Store) (ref : Ref)
    (q : Query) (hread : store.read ref = some q)
    (h : q.dates = none ∨ q.dates = some .undefined ∨ q.dates = some .null ∨
      ∃ start end_, q.dates = some (.obj start end_) ∧
        start.isNil = true ∧ end_.isNil = true) :
    updateUrlNewQuery q =
      .ok { search := q.search, dates := some (.obj .undefined .undefined),
            filters := q.filters, sort := q.sort, offset := q.offset, count := q.count } ∧
    updateUrl lib props q =
      .ok [Effect.historyReplace props.location.pathname
        (lib.stringify
          { search := q.search, dates := some (.obj .undefined .undefined),
            filters := q.filters, sort := q.sort, offset := q.offset, count := q.count })] ∧
    ∃ after newQuery,
      updateUrlStore lib props store ref =
        .ok (after, newQuery,
          [Effect.historyReplace props.location.pathname
            (lib.stringify
              { search := q.search, dates := some (.obj .undefined .undefined),
                filters := q.filters, sort := q.sort, offset := q.offset,
                count := q.count })]) ∧
      after.read ref = some q ∧
      newQuery ≠ ref ∧
      after.read newQuery =
        some { search := q.search, dates := some (.obj .undefined .undefined),
               filters := q.filters, sort := q.sort, offset := q.offset, count := q.count } ∧
      ∀ other, other < store.length → after.read other = store.read other := by
  have hnil : isDatesNil (q.dates.getD .undefined) = true := by
    rcases h with h | h | h | ⟨start, end_, h, hs, he⟩
    · rw [h]; rfl
    · rw [h]; rfl
    · rw [h]; rfl
    · rw [h]; simp [isDatesNil, hs, he]
  have hpatch : parseDatesToISO (q.dates.getD .undefined) =
      .ok (objOfDates (.obj .undefined .undefined)) := by
    unfold parseDatesToISO
    rw [if_pos hnil]
  have key : updateUrlNewQuery q =
      .ok { search := q.search, dates := some (.obj .undefined .undefined),
            filters := q.filters, sort := q.sort, offset := q.offset, count := q.count } := by
    unfold updateUrlNewQuery
    rw [hpatch]
    show Except.ok (merge q (objOfDates _)) = _
    rw [merge_objOfDates]
  refine ⟨key, ?_, ?_⟩
  · unfold updateUrl
    rw [key]
    rfl
  · have hlt : ref < store.length := Store.read_lt hread
    refine ⟨store ++ [objOfDates (.obj .undefined .undefined)] ++
        [merge q (objOfDates (.obj .undefined .undefined))],
      store.length + 1, ?_, ?_, ?_, ?_, ?_⟩
    · unfold updateUrlStore
      rw [hread]
      simp only [hpatch]
      show (match (mergeStore (store ++ [objOfDates (.obj .undefined .undefined)]) ref
          store.length).1.read (mergeStore (store ++ [objOfDates (.obj .undefined .undefined)])
          ref store.length).2 with
        | some newQuery =>
          Except.ok ((mergeStore (store ++ [objOfDates (.obj .undefined .undefined)]) ref
              store.length).1,
            (mergeStore (store ++ [objOfDates (.obj .undefined .undefined)]) ref
              store.length).2,
            [Effect.historyReplace props.location.pathname (lib.stringify newQuery)])
        | none => Except.error JsError.typeError) = _
      rw [mergeStore_eq (store ++ [objOfDates (.obj .undefined .undefined)]) ref store.length
        q (objOfDates (.obj .undefined .undefined))
        (Store.read_append_of_read hread _) (Store.read_append_length store _)]
      have hlen : (store ++ [objOfDates (.obj .undefined .undefined)]).length
          = store.length + 1 := by simp
      simp only [hlen]
      have hnew : Store.read (store ++ [objOfDates (.obj .undefined .undefined)] ++
          [merge q (objOfDates (.obj .undefined .undefined))]) (store.length + 1)
          = some (merge q (objOfDates (.obj .undefined .undefined))) := by
        rw [← hlen]
        exact Store.read_append_length _ _
      rw [hnew]
      simp only [merge_objOfDates]
    · rw [List.append_assoc]
      exact Store.read_append_of_read hread _
    · exact Nat.ne_of_gt (Nat.lt_succ_of_lt hlt)
    · have hlen : (store ++ [objOfDates (.obj .undefined .undefined)]).length
          = store.length + 1 := by simp
      rw [← hlen, Store.read_append_length, merge_objOfDates]
    · intro other hother
      unfold Store.read
      rw [List.append_assoc, List.getElem?_append_left hother]

/-- C8, at a store that holds the sample query (no `dates`) at reference 0
and a query whose dates are both `null` at reference 1, for each of the two. -/
theorem updateUrl_nil_dates_witness :
    (∃ after newQuery,
      updateUrlStore sampleLibraries sampleProps
          [sampleQuery, { sampleQuery with dates := some (.obj .null .null) }] 0 =
        .ok (after, newQuery,
          [Effect.historyReplace sampleProps.location.pathname
            (sampleLibraries.stringify
              { sampleQuery with dates := some (.obj .undefined .undefined) })]) ∧
      after.read 0 = some sampleQuery ∧
      newQuery ≠ 0 ∧
      after.read newQuery =
        some { sampleQuery with dates := some (.obj .undefined .undefined) } ∧
      ∀ other, other < 2 →
        after.read other =
          Store.read [sampleQuery, { sampleQuery with dates := some (.obj .null .null) }]
            other) ∧
    updateUrlNewQuery { sampleQuery with dates := some (.obj .null .null) } =
      .ok { sampleQuery with dates := some (.obj .undefined .undefined) } :=
  ⟨(updateUrl_nil_dates sampleLibraries sampleProps
      [sampleQuery, { sampleQuery with dates := some (.obj .null .null) }] 0 sampleQuery rfl
      (Or.inl rfl)).2.2,
   (updateUrl_nil_dates sampleLibraries sampleProps
      [sampleQuery, { sampleQuery with dates := some (.obj .null .null) }] 1
      { sampleQuery with dates := some (.obj .null .null) } rfl
      (Or.inr (Or.inr (Or.inr ⟨.null, .null, rfl, rfl, rfl⟩)))).1⟩

/-! ## Pagination: the double quotient and its ceiling -/

/-- Rounding to the nearest integer does not go below the floor. -/
theorem floor_le_roundTiesEven (m : ℚ) : Int.floor m ≤ roundTiesEven m := by
  unfold roundTiesEven
  split_ifs <;> omega

/-- Rounding to the nearest integer does not pass an integer above. -/
theorem roundTiesEven_le_of_le_int (m : ℚ) (K : ℤ) (h : m ≤ (K : ℚ)) :
    roundTiesEven m ≤ K := by
  have hf : Int.floor m ≤ K := Int.floor_le_iff.mpr (by linarith)  
  rcases eq_or_lt_of_le h with heq | hlt
  · have hfl : Int.floor m = K := by rw [heq]; exact Int.floor_intCast K
    unfold roundTiesEven
    rw [hfl, heq]
    simp
  · have hfl : Int.floor m < K := Int.floor_lt.mpr hlt
    unfold roundTiesEven
    split_ifs <;> omega

/-- A value more than one half above an integer rounds above it. -/
theorem lt_roundTiesEven (m : ℚ) (L : ℤ) (h : (L : ℚ) + 1 / 2 < m) :
    L < roundTiesEven m := by
  have hL : L ≤ Int.floor m := Int.le_floor.mpr (by linarith)
  rcases eq_or_lt_of_le hL with heq | hlt
  · unfold roundTiesEven
    rw [← heq]
    have h1 : ¬ (m - (L : ℚ) < 1 / 2) := by linarith
    have h2 : 1 / 2 < m - (L : ℚ) := by linarith
    simp only [h1, h2, if_false, if_true]
    omega
  · have := floor_le_roundTiesEven m
    omega


/-- Below `2 ^ 53` the spacing of the doubles is `1 / 2 ^ N`, fine enough to
separate the multiples of `1 / c` from the integers when `c * q < 2 ^ 53`. -/
theorem doubleUlp_eq (q : ℚ) (hq : 0 < q) (hlt : q < (2 : ℚ) ^ (53 : ℕ)) :
    ∃ N : ℕ, doubleUlp q = ((2 : ℚ) ^ N)⁻¹ ∧
      ∀ c : ℚ, 0 < c → c * q < (2 : ℚ) ^ (53 : ℕ) → c < (2 : ℚ) ^ (1024 : ℕ) →
        c < 2 * (2 : ℚ) ^ N := by
  have hlog : Int.log 2 q < 53 := by
    have := (Int.lt_zpow_iff_log_lt (b := 2) (x := 53) (by norm_num) hq).mp
      (by exact_mod_cast hlt)
    exact this
  have he : max (Int.log 2 q) (-1022) ≤ 52 := by
    apply max_le <;> omega
  refine ⟨(52 - max (Int.log 2 q) (-1022)).toNat, ?_, ?_⟩
  · unfold doubleUlp
    have : max (Int.log 2 q) (-1022) - 52
        = -(((52 - max (Int.log 2 q) (-1022)).toNat : ℕ) : ℤ) := by
      rw [Int.toNat_of_nonneg (by omega)]; ring
    rw [this, zpow_neg, zpow_natCast]
  · intro c hc hcq hc2
    set N := (52 - max (Int.log 2 q) (-1022)).toNat with hN
    have hNe : max (Int.log 2 q) (-1022) = 52 - (N : ℤ) := by
      rw [hN, Int.toNat_of_nonneg (by omega)]; ring
    have hpow : c * (2 : ℚ) ^ (max (Int.log 2 q) (-1022)) < (2 : ℚ) ^ (53 : ℕ) := by
      rcases max_cases (Int.log 2 q) (-1022) with ⟨h1, _⟩ | ⟨h1, _⟩
      · rw [h1]
        have h2 : ((2 : ℕ) : ℚ) ^ Int.log 2 q ≤ q := Int.zpow_log_le_self (by norm_num) hq
        have h3 : c * (2 : ℚ) ^ Int.log 2 q ≤ c * q := by
          apply mul_le_mul_of_nonneg_left _ hc.le
          exact_mod_cast h2
        linarith
      · rw [h1]
        have h2 : (2 : ℚ) ^ (-1022 : ℤ) = ((2 : ℚ) ^ (1022 : ℕ))⁻¹ := by
          rw [zpow_neg]; norm_cast
        rw [h2]
        have h3 : c * ((2 : ℚ) ^ (1022 : ℕ))⁻¹ < (2 : ℚ) ^ (1024 : ℕ) * ((2 : ℚ) ^ (1022 : ℕ))⁻¹ := by
          apply mul_lt_mul_of_pos_right hc2
          positivity
        have h4 : (2 : ℚ) ^ (1024 : ℕ) * ((2 : ℚ) ^ (1022 : ℕ))⁻¹ = 4 := by
          rw [show (1024 : ℕ) = 2 + 1022 from rfl, pow_add]
          field_simp
          norm_num
        have h5 : (4 : ℚ) < (2 : ℚ) ^ (53 : ℕ) := by norm_num
        linarith
    rw [hNe, zpow_sub₀ (by norm_num : (2 : ℚ) ≠ 0), zpow_natCast] at hpow
    have hNpos : (0 : ℚ) < (2 : ℚ) ^ N := by positivity
    have h52 : (2 : ℚ) ^ (52 : ℤ) = (2 : ℚ) ^ (52 : ℕ) := by norm_cast
    rw [h52, ← mul_div_assoc, div_lt_iff₀ hNpos] at hpow
    have h53 : (2 : ℚ) ^ (53 : ℕ) = 2 * (2 : ℚ) ^ (52 : ℕ) := by norm_num
    rw [h53] at hpow
    have h52pos : (0 : ℚ) < (2 : ℚ) ^ (52 : ℕ) := by positivity
    nlinarith

/-- For `t < 2 ^ 53` the ceiling of the rounded quotient `t / c` is the ceiling
of the exact quotient. -/
theorem mathCeil_toDouble_div (t c : ℕ) (ht : t < 2 ^ 53) (hc : 0 < c)
    (hc2 : (c : ℚ) < 2 ^ 1024) :
    mathCeil (toDouble ((t : ℚ) / (c : ℚ))) =
      .num ((Int.ceil ((t : ℚ) / (c : ℚ)) : ℤ) : ℚ) := by
  have hcq : (0 : ℚ) < (c : ℚ) := by exact_mod_cast hc
  rcases Nat.eq_zero_or_pos t with h0 | hpos
  · subst h0
    simp [toDouble, mathCeil]
  have htq : (0 : ℚ) < (t : ℚ) := by exact_mod_cast hpos
  have hq : (0 : ℚ) < (t : ℚ) / (c : ℚ) := div_pos htq hcq
  set q : ℚ := (t : ℚ) / (c : ℚ) with hqdef
  have htlt : (t : ℚ) < (2 : ℚ) ^ (53 : ℕ) := by exact_mod_cast ht
  have hc1 : (1 : ℚ) ≤ (c : ℚ) := by exact_mod_cast hc
  have hqt : q ≤ (t : ℚ) := div_le_self htq.le hc1
  have hqlt : q < (2 : ℚ) ^ (53 : ℕ) := lt_of_le_of_lt hqt htlt
  have hcmul : (c : ℚ) * q = (t : ℚ) := by rw [hqdef]; field_simp
  obtain ⟨N, hu, hbound⟩ := doubleUlp_eq q hq hqlt
  have hcN : (c : ℚ) < 2 * (2 : ℚ) ^ N :=
    hbound c hcq (by rw [hcmul]; exact htlt) hc2
  have hNpos : (0 : ℚ) < (2 : ℚ) ^ N := by positivity
  set k : ℤ := Int.ceil q with hk
  have hk1 : q ≤ (k : ℚ) := Int.le_ceil q
  have hk2 : (k : ℚ) - 1 < q := by
    have := Int.ceil_lt_add_one q
    linarith
  have hkt : (k : ℚ) ≤ (t : ℚ) := by
    have : k ≤ (t : ℤ) := Int.ceil_le.mpr (by exact_mod_cast hqt)
    exact_mod_cast this
  have hstep : (k : ℚ) - 1 + 1 / (c : ℚ) ≤ q := by
    have h1 : ((k : ℚ) - 1) * (c : ℚ) < (t : ℚ) := by
      have := mul_lt_mul_of_pos_right hk2 hcq
      rwa [hqdef, div_mul_cancel₀ _ hcq.ne.symm] at this
    have h2 : (k - 1) * (c : ℤ) < (t : ℤ) := by exact_mod_cast h1
    have h3 : (k - 1) * (c : ℤ) + 1 ≤ (t : ℤ) := by omega
    have h4 : ((k : ℚ) - 1) * (c : ℚ) + 1 ≤ (t : ℚ) := by exact_mod_cast h3
    rw [hqdef, le_div_iff₀ hcq]
    have : ((k : ℚ) - 1 + 1 / (c : ℚ)) * (c : ℚ) = ((k : ℚ) - 1) * (c : ℚ) + 1 := by
      field_simp
    rw [this]
    exact h4
  have hm : q / doubleUlp q = q * (2 : ℚ) ^ N := by
    rw [hu, div_inv_eq_mul]
  have hupper : roundTiesEven (q * (2 : ℚ) ^ N) ≤ k * (2 : ℤ) ^ N := by
    apply roundTiesEven_le_of_le_int
    push_cast
    exact mul_le_mul_of_nonneg_right hk1 hNpos.le
  have hlower : (k - 1) * (2 : ℤ) ^ N < roundTiesEven (q * (2 : ℚ) ^ N) := by
    apply lt_roundTiesEven
    push_cast
    have h1 : ((k : ℚ) - 1 + 1 / (c : ℚ)) * (2 : ℚ) ^ N ≤ q * (2 : ℚ) ^ N :=
      mul_le_mul_of_nonneg_right hstep hNpos.le
    have h2 : (1 : ℚ) / 2 < 1 / (c : ℚ) * (2 : ℚ) ^ N := by
      rw [one_div_mul_eq_div, lt_div_iff₀ hcq]
      linarith
    nlinarith
  set r : ℚ := ((roundTiesEven (q / doubleUlp q) : ℤ) : ℚ) * doubleUlp q with hr
  have hr1 : r ≤ (k : ℚ) := by
    rw [hr, hm, hu]
    have : ((roundTiesEven (q * (2 : ℚ) ^ N) : ℤ) : ℚ) ≤ (k : ℚ) * (2 : ℚ) ^ N := by
      exact_mod_cast hupper
    rw [← div_eq_mul_inv, div_le_iff₀ hNpos]
    exact this
  have hr2 : (k : ℚ) - 1 < r := by
    rw [hr, hm, hu]
    have : ((k : ℚ) - 1) * (2 : ℚ) ^ N < ((roundTiesEven (q * (2 : ℚ) ^ N) : ℤ) : ℚ) := by
      exact_mod_cast hlower
    rw [← div_eq_mul_inv, lt_div_iff₀ hNpos]
    exact this
  have hover : ¬ ((2 : ℚ) ^ 1024 ≤ r) := by
    have : (2 : ℚ) ^ (53 : ℕ) < (2 : ℚ) ^ 1024 := by norm_num
    linarith
  have hceil : Int.ceil r = k := Int.ceil_eq_iff.mpr ⟨hr2, hr1⟩
  unfold toDouble
  rw [if_neg hq.ne.symm, abs_of_pos hq]
  simp only [hover, if_false, hq, if_true, mathCeil]
  rw [hceil]


/-- The page count of `render` for a total of `t < 2 ^ 53` records and a
positive page size `c` is the ceiling of the exact quotient. -/
theorem mathCeil_jsDivide (t c : Nat) (ht : t < 2 ^ 53) (hc : 0 < c)
    (hc2 : (c : ℚ) < 2 ^ 1024) :
    mathCeil (jsDivide (some (t : Int)) (some (c : Int))) =
      .num ((Int.ceil ((t : ℚ) / (c : ℚ)) : ℤ) : ℚ) := by
  have hc0 : (c : Int) ≠ 0 := by exact_mod_cast hc.ne.symm
  unfold jsDivide
  simp only [ne_eq, hc0, not_false_eq_true, if_true, Int.cast_natCast]
  exact mathCeil_toDouble_div t c ht hc hc2

/-- C9, as stated, fails: for the total `t = 13510798882111492` (an even number
between `2 ^ 53` and `2 ^ 54`, so a double) and the page size `c = 3`, the
quotient rounds down to `4503599627370497` and `render` passes that as the
pagination total, although `4503599627370497 * 3 < t`. -/
theorem render_pagination_total_counterexample :
    mathCeil (jsDivide (some 13510798882111492) (some 3)) = .num 4503599627370497 ∧
      (4503599627370497 : ℤ) * 3 < 13510798882111492 ∧
      (13510798882111492 : ℤ) = 2 * 6755399441055746 ∧
      (2 : ℤ) ^ 53 ≤ 13510798882111492 ∧ (13510798882111492 : ℤ) < 2 ^ 54 ∧
      ∃ listProps,
        render
          { sampleState with
            result := { sampleResult with
              total := { count := some 13510798882111492, payment := none } } }
          { sampleProps with
            search := { loading := false, query := { sampleQuery with count := some 3 } } }
          = .ok listProps ∧
        listProps.pagination.total = .num 4503599627370497 := by
  have hq : (0 : ℚ) < (13510798882111492 : ℚ) / 3 := by norm_num
  have hlog : Int.log 2 ((13510798882111492 : ℚ) / 3) = 52 := by
    have h1 : (52 : ℤ) ≤ Int.log 2 ((13510798882111492 : ℚ) / 3) :=
      (Int.zpow_le_iff_le_log (b := 2) (by norm_num) hq).mp (by norm_num)
    have h2 : Int.log 2 ((13510798882111492 : ℚ) / 3) < 53 :=
      (Int.lt_zpow_iff_log_lt (b := 2) (by norm_num) hq).mp (by norm_num)
    omega
  have hulp : doubleUlp ((13510798882111492 : ℚ) / 3) = 1 := by
    unfold doubleUlp
    rw [hlog]
    norm_num
  have hfloor : Int.floor ((13510798882111492 : ℚ) / 3) = 4503599627370497 := by
    rw [Int.floor_eq_iff]
    constructor <;> norm_num
  have hround : roundTiesEven ((13510798882111492 : ℚ) / 3) = 4503599627370497 := by
    unfold roundTiesEven
    rw [hfloor]
    norm_num
  have hdiv : jsDivide (some 13510798882111492) (some 3) = .num 4503599627370497 := by
    unfold jsDivide
    simp only [ne_eq, OfNat.ofNat_ne_zero, not_false_eq_true, if_true]
    unfold toDouble
    have hcast : ((13510798882111492 : ℤ) : ℚ) / ((3 : ℤ) : ℚ)
        = (13510798882111492 : ℚ) / 3 := by
      norm_num
    rw [hcast, if_neg hq.ne.symm, abs_of_pos hq, hulp, div_one, hround]
    have hover : ¬ ((2 : ℚ) ^ 1024 ≤ ((4503599627370497 : ℤ) : ℚ) * 1) := by norm_num
    simp only [hover, if_false, hq, if_true]
    norm_num
  have hceil : mathCeil (jsDivide (some 13510798882111492) (some 3))
      = .num 4503599627370497 := by
    rw [hdiv]
    simp [mathCeil]
  refine ⟨hceil, by norm_num, by norm_num, by norm_num, by norm_num, ?_⟩
  rw [← hceil]
  exact ⟨_, rfl, rfl⟩

/-- C9, amended: for every total record count `t < 2 ^ 53` and every positive
page size `c` (a finite double, so below `2 ^ 1024`), the pagination total that
`render` computes is the least natural `p` with `p * c ≥ t`, the ceiling of
`t / c`, and `render` returns it when the query has a sort spec; for `t = 101`,
`c = 20` it is 6. -/
theorem render_pagination_total (t c : Nat) (ht : t < 2 ^ 53) (hc : 0 < c)
    (hc2 : (c : ℚ) < 2 ^ 1024) (state : State) (props : Props)
    (htotal : state.result.total.count = some (t : Int))
    (hcount : props.search.query.count = some (c : Int)) :
    (∃ p : Nat,
      mathCeil (jsDivide state.result.total.count props.search.query.count) = .num (p : ℚ) ∧
      t ≤ p * c ∧ (∀ p0 : Nat, t ≤ p0 * c → p ≤ p0) ∧
      (∀ spec, props.search.query.sort = some spec →
        ∃ listProps, render state props = .ok listProps ∧
          listProps.pagination.total = .num (p : ℚ))) ∧
    mathCeil (jsDivide (some 101) (some 20)) = .num 6 := by
  have hcq : (0 : ℚ) < (c : ℚ) := by exact_mod_cast hc
  have hnonneg : (0 : ℤ) ≤ Int.ceil ((t : ℚ) / (c : ℚ)) :=
    Int.ceil_nonneg (div_nonneg (Nat.cast_nonneg t) (Nat.cast_nonneg c))
  have hcast : (((Int.ceil ((t : ℚ) / (c : ℚ))).toNat : ℕ) : ℚ) =
      ((Int.ceil ((t : ℚ) / (c : ℚ)) : ℤ) : ℚ) := by
    have : (((Int.ceil ((t : ℚ) / (c : ℚ))).toNat : ℤ) : ℚ) =
        ((Int.ceil ((t : ℚ) / (c : ℚ)) : ℤ) : ℚ) := by
      rw [Int.toNat_of_nonneg hnonneg]
    exact_mod_cast this
  have hvalue : mathCeil (jsDivide state.result.total.count props.search.query.count) =
      .num (((Int.ceil ((t : ℚ) / (c : ℚ))).toNat : ℕ) : ℚ) := by
    rw [htotal, hcount, mathCeil_jsDivide t c ht hc hc2, hcast]
  constructor
  · refine ⟨(Int.ceil ((t : ℚ) / (c : ℚ))).toNat, hvalue, ?_, ?_, ?_⟩
    · have h1 : (t : ℚ) / (c : ℚ) ≤ ((Int.ceil ((t : ℚ) / (c : ℚ)) : ℤ) : ℚ) :=
        Int.le_ceil _
      have h2 : (t : ℚ) ≤ ((Int.ceil ((t : ℚ) / (c : ℚ)) : ℤ) : ℚ) * (c : ℚ) :=
        (div_le_iff₀ hcq).mp h1
      have h3 : (t : ℤ) ≤ Int.ceil ((t : ℚ) / (c : ℚ)) * (c : ℤ) := by exact_mod_cast h2
      have h4 : ((Int.ceil ((t : ℚ) / (c : ℚ))).toNat : ℤ) = Int.ceil ((t : ℚ) / (c : ℚ)) :=
        Int.toNat_of_nonneg hnonneg
      have h5 : (t : ℤ) ≤ (((Int.ceil ((t : ℚ) / (c : ℚ))).toNat * c : ℕ) : ℤ) := by
        push_cast
        rw [h4]
        exact h3
      exact_mod_cast h5
    · intro p0 hp0
      have h1 : (t : ℚ) ≤ (p0 : ℚ) * (c : ℚ) := by exact_mod_cast hp0
      have h2 : (t : ℚ) / (c : ℚ) ≤ ((p0 : ℤ) : ℚ) := by
        rw [div_le_iff₀ hcq]
        exact_mod_cast h1
      have h3 : Int.ceil ((t : ℚ) / (c : ℚ)) ≤ (p0 : ℤ) := Int.ceil_le.mpr h2
      omega
    · intro spec hspec
      rw [← hvalue]
      unfold render
      dsimp only
      rw [hspec]
      exact ⟨_, rfl, rfl⟩
  · rw [show (some (101 : Int)) = some ((101 : ℕ) : Int) from rfl,
      show (some (20 : Int)) = some ((20 : ℕ) : Int) from rfl,
      mathCeil_jsDivide 101 20 (by norm_num) (by decide) (by norm_num)]
    congr 1
    have : Int.ceil (((101 : ℕ) : ℚ) / ((20 : ℕ) : ℚ)) = 6 := by
      rw [Int.ceil_eq_iff]
      constructor <;> norm_num
    rw [this]
    norm_num

/-- C9 amended, at 101 records and the page size 10 of the sample props:
eleven pages. -/
theorem render_pagination_total_witness :
    (∃ p : Nat,
      mathCeil (jsDivide sampleState.result.total.count sampleProps.search.query.count) =
        .num (p : ℚ) ∧
      101 ≤ p * 10 ∧ (∀ p0 : Nat, 101 ≤ p0 * 10 → p ≤ p0) ∧
      (∀ spec, sampleProps.search.query.sort = some spec →
        ∃ listProps, render sampleState sampleProps = .ok listProps ∧
          listProps.pagination.total = .num (p : ℚ))) ∧
    mathCeil (jsDivide (some 101) (some 20)) = .num 6 :=
  render_pagination_total 101 10 (by norm_num) (by decide) (by norm_num)
    sampleState sampleProps rfl rfl

/-- C10 fails: for every stored query that has `offset` and `count` but no
sort spec, `render` raises a `TypeError` (at `sort.field`) and computes no
props, so neither the empty `order` nor the index `-1`. -/
theorem render_without_sort (state : State) (location : Location) (loading : Bool)
    (search : Option String) (dates : Option DatesValue) (filters : Option Filters)
    (offset count : Int) :
    render state
        { location := location,
          search :=
            { loading := loading,
              query := { search := search, dates := dates, filters := filters,
                         sort := none, offset := some offset, count := some count } } } =
      .error .typeError := by
  rfl

end Transactions
